import Mathlib

/-
Verification development for the tsdv-joi decorator-driven validation library.

The repository source available under src/ is src/constraints/any.ts (the
generic "any" decorator catalogue), together with the Gotchas test suite,
the boolean-constraint test suite and package.json.  The shared core
(core.ts: the per-prototype metadata store and its helpers), the
kind-specific decorator modules (number.ts, boolean.ts, object.ts), the
Validator and the external Joi schema algebra are not part of src/; where a
definition embeds one of those, its doc comment starts with
"Modelled from the spec:" and names the missing piece.

TypeScript decorators mutate a per-prototype metadata table and abort class
definition by throwing.  The embedding makes that state explicit: a store is
an association list from property name to accumulated schema node, and a
decorator is a function from store and property key to
`Except DecoratorError Store`.
-/

namespace TsdvJoi

/-- Runtime values that instances and schema configuration carry (numbers,
strings, booleans cover every value exercised by the claims). -/
inductive Value where
  | vnum (n : Int)
  | vstr (s : String)
  | vbool (b : Bool)
  deriving DecidableEq, Repr

/-- Base kinds of the Joi schema algebra used by the repository. -/
inductive Kind where
  | any
  | number
  | boolean
  | object
  deriving DecidableEq, Repr

/-- Presence flag of a schema node; Joi treats a key with no explicit
presence call as optional. -/
inductive Presence where
  | optional
  | required
  deriving DecidableEq, Repr

/-- Modelled from the spec: the external Joi schema algebra (spec section 6),
an opaque persistent-functional schema value.  It is embedded as the free
algebra of the operations the repository applies: a base-kind constructor
followed by the refinement methods any.ts and the kind-specific decorator
modules call.  A method call `schema.op(args)` becomes the constructor
`Schema.op schema args`, so the outermost constructor is the most recently
applied operation. -/
inductive Schema where
  | any
  | number
  | boolean
  | object
  | allow (s : Schema) (values : List Value)
  | concat (s : Schema) (other : Schema)
  | default (s : Schema) (value : Option Value) (description : Option String)
  | invalid (s : Schema) (values : List Value)
  | optional (s : Schema)
  | required (s : Schema)
  | valid (s : Schema) (values : List Value)
  | min (s : Schema) (value : Int)
  | keys (s : Schema) (keyMap : List (String × Schema))
  | truthy (s : Schema) (values : List Value)
  | falsy (s : Schema) (values : List Value)
  | insensitive (s : Schema) (enabled : Bool)

/-- Modelled from the spec: the Joi base-kind constructor `Joi.any()`. -/
def Joi.any : Schema := Schema.any

/-- Modelled from the spec: the Joi base-kind constructor `Joi.number()`. -/
def Joi.number : Schema := Schema.number

/-- Modelled from the spec: the Joi base-kind constructor `Joi.boolean()`. -/
def Joi.boolean : Schema := Schema.boolean

/-- Modelled from the spec: the Joi base-kind constructor `Joi.object()`. -/
def Joi.object : Schema := Schema.object

/-- Base kind of an accumulated schema node.  Refinements keep the kind of
the node they refine; `concat` keeps the argument's kind unless the argument
is an `any` schema. -/
def Schema.kind : Schema → Kind
  | .any => .any
  | .number => .number
  | .boolean => .boolean
  | .object => .object
  | .allow s _ => s.kind
  | .concat s t => if t.kind = Kind.any then s.kind else t.kind
  | .default s _ _ => s.kind
  | .invalid s _ => s.kind
  | .optional s => s.kind
  | .required s => s.kind
  | .valid s _ => s.kind
  | .min s _ => s.kind
  | .keys s _ => s.kind
  | .truthy s _ => s.kind
  | .falsy s _ => s.kind
  | .insensitive s _ => s.kind

/-- Effective presence of a node: the presence call applied last (outermost
constructor) wins, matching the Joi algebra where a later `required()`
overrides an earlier `optional()`.  `concat` takes the concatenated
schema's presence when it has one. -/
def Schema.presence : Schema → Option Presence
  | .optional _ => some .optional
  | .required _ => some .required
  | .allow s _ => s.presence
  | .concat s t => (t.presence).orElse (fun _ => s.presence)
  | .default s _ _ => s.presence
  | .invalid s _ => s.presence
  | .valid s _ => s.presence
  | .min s _ => s.presence
  | .keys s _ => s.presence
  | .truthy s _ => s.presence
  | .falsy s _ => s.presence
  | .insensitive s _ => s.presence
  | _ => none

/-- All numeric lower bounds accumulated on a node. -/
def Schema.mins : Schema → List Int
  | .min s n => n :: s.mins
  | .allow s _ => s.mins
  | .concat s t => s.mins ++ t.mins
  | .default s _ _ => s.mins
  | .invalid s _ => s.mins
  | .optional s => s.mins
  | .required s => s.mins
  | .valid s _ => s.mins
  | .keys s _ => s.mins
  | .truthy s _ => s.mins
  | .falsy s _ => s.mins
  | .insensitive s _ => s.mins
  | _ => []

/-- All extra truthy values accumulated on a boolean node. -/
def Schema.truthys : Schema → List Value
  | .truthy s vs => s.truthys ++ vs
  | .allow s _ => s.truthys
  | .concat s t => s.truthys ++ t.truthys
  | .default s _ _ => s.truthys
  | .invalid s _ => s.truthys
  | .optional s => s.truthys
  | .required s => s.truthys
  | .valid s _ => s.truthys
  | .min s _ => s.truthys
  | .keys s _ => s.truthys
  | .falsy s _ => s.truthys
  | .insensitive s _ => s.truthys
  | _ => []

/-- All extra falsy values accumulated on a boolean node. -/
def Schema.falsys : Schema → List Value
  | .falsy s vs => s.falsys ++ vs
  | .allow s _ => s.falsys
  | .concat s t => s.falsys ++ t.falsys
  | .default s _ _ => s.falsys
  | .invalid s _ => s.falsys
  | .optional s => s.falsys
  | .required s => s.falsys
  | .valid s _ => s.falsys
  | .min s _ => s.falsys
  | .keys s _ => s.falsys
  | .truthy s _ => s.falsys
  | .insensitive s _ => s.falsys
  | _ => []

/-- Explicit case-insensitivity setting, if one was applied; the call
applied last (outermost) wins. -/
def Schema.insensQ : Schema → Option Bool
  | .insensitive _ b => some b
  | .allow s _ => s.insensQ
  | .concat s t => (t.insensQ).orElse (fun _ => s.insensQ)
  | .default s _ _ => s.insensQ
  | .invalid s _ => s.insensQ
  | .optional s => s.insensQ
  | .required s => s.insensQ
  | .valid s _ => s.insensQ
  | .min s _ => s.insensQ
  | .keys s _ => s.insensQ
  | .truthy s _ => s.insensQ
  | .falsy s _ => s.insensQ
  | _ => none

/-- Case-insensitivity in force for string matching; Joi defaults to
insensitive matching when no explicit setting was applied. -/
def Schema.insens (s : Schema) : Bool :=
  (s.insensQ).getD true

/-- Default value configured for the node, if any; the outermost (latest)
default wins, and `concat` prefers the concatenated schema's default. -/
def Schema.defaultQ : Schema → Option Value
  | .default s v _ => v.orElse (fun _ => s.defaultQ)
  | .allow s _ => s.defaultQ
  | .concat s t => (t.defaultQ).orElse (fun _ => s.defaultQ)
  | .invalid s _ => s.defaultQ
  | .optional s => s.defaultQ
  | .required s => s.defaultQ
  | .valid s _ => s.defaultQ
  | .min s _ => s.defaultQ
  | .keys s _ => s.defaultQ
  | .truthy s _ => s.defaultQ
  | .falsy s _ => s.defaultQ
  | .insensitive s _ => s.defaultQ
  | _ => none

/-- Whitelist of always-allowed values accumulated on the node. -/
def Schema.allowQ : Schema → List Value
  | .allow s vs => s.allowQ ++ vs
  | .concat s t => s.allowQ ++ t.allowQ
  | .default s _ _ => s.allowQ
  | .invalid s _ => s.allowQ
  | .optional s => s.allowQ
  | .required s => s.allowQ
  | .valid s _ => s.allowQ
  | .min s _ => s.allowQ
  | .keys s _ => s.allowQ
  | .truthy s _ => s.allowQ
  | .falsy s _ => s.allowQ
  | .insensitive s _ => s.allowQ
  | _ => []

/-- Restricted value set (Joi `valid`) accumulated on the node. -/
def Schema.validQ : Schema → List Value
  | .valid s vs => s.validQ ++ vs
  | .allow s _ => s.validQ
  | .concat s t => s.validQ ++ t.validQ
  | .default s _ _ => s.validQ
  | .invalid s _ => s.validQ
  | .optional s => s.validQ
  | .required s => s.validQ
  | .min s _ => s.validQ
  | .keys s _ => s.validQ
  | .truthy s _ => s.validQ
  | .falsy s _ => s.validQ
  | .insensitive s _ => s.validQ
  | _ => []

/-- Excluded value set (Joi `invalid`) accumulated on the node. -/
def Schema.invalidQ : Schema → List Value
  | .invalid s vs => s.invalidQ ++ vs
  | .allow s _ => s.invalidQ
  | .concat s t => s.invalidQ ++ t.invalidQ
  | .default s _ _ => s.invalidQ
  | .optional s => s.invalidQ
  | .required s => s.invalidQ
  | .valid s _ => s.invalidQ
  | .min s _ => s.invalidQ
  | .keys s _ => s.invalidQ
  | .truthy s _ => s.invalidQ
  | .falsy s _ => s.invalidQ
  | .insensitive s _ => s.invalidQ
  | _ => []

/-- Per-prototype metadata: property name mapped to its accumulated schema
node, in insertion order (spec section 4.1). -/
abbrev Store := List (String × Schema)

/-- Definition-time errors of the accumulation protocol (spec section 7).
`ValidationSchemaNotFound` carries the offending property key, as in the
test expectation; `ConstraintDefinitionError` carries its message string. -/
inductive DecoratorError where
  | ValidationSchemaNotFound (propertyKey : String)
  | ConstraintDefinitionError (message : String)
  deriving DecidableEq, Repr

/-- A property decorator acts on the defining prototype's store at one
property key, and either returns the updated store or aborts class
definition with a definition-time error. -/
abbrev PropertyDecorator := Store → String → Except DecoratorError Store

/-- Modelled from the spec: core.ts `getPropertySchema` (missing from src/,
imported by any.ts) — the Metadata Store read of spec section 4.1, returning
the currently accumulated node for the property, or nothing. -/
def getPropertySchema (target : Store) (propertyKey : String) : Option Schema :=
  match target with
  | [] => none
  | (k, s) :: rest =>
      if k = propertyKey then some s else getPropertySchema rest propertyKey

/-- Modelled from the spec: core.ts `updateSchema` (missing from src/,
imported by any.ts) — the unconditional overwrite the spec calls
`setSchema` in section 4.1, creating the entry when absent and preserving
insertion order. -/
def updateSchema (target : Store) (propertyKey : String) (schema : Schema) : Store :=
  match target with
  | [] => [(propertyKey, schema)]
  | (k, s) :: rest =>
      if k = propertyKey then (k, schema) :: rest
      else (k, s) :: updateSchema rest propertyKey schema

/-- Modelled from the spec: core.ts `getAndUpdateSchema` (missing from src/,
imported by any.ts) — the fallible read-modify-write the spec calls
`updateSchema` in section 4.1: it fails with `ValidationSchemaNotFound` when
no node exists for the property, and never infers a base kind otherwise. -/
def getAndUpdateSchema (target : Store) (propertyKey : String)
    (updateFunction : Schema → Schema) : Except DecoratorError Store :=
  match getPropertySchema target propertyKey with
  | some schema => .ok (updateSchema target propertyKey (updateFunction schema))
  | none => .error (.ValidationSchemaNotFound propertyKey)

/-- Decorator from src/constraints/any.ts: `Allow(...values)` whitelists
values via `schema.allow(values)`. -/
def Allow (values : List Value) : PropertyDecorator :=
  fun target propertyKey =>
    getAndUpdateSchema target propertyKey (fun schema => schema.allow values)

/-- Decorator from src/constraints/any.ts: `AnySchema()` establishes the
`any` base kind, throwing `ConstraintDefinitionError` when a schema already
exists for the property and otherwise storing a fresh `Joi.any()` node. -/
def AnySchema : PropertyDecorator :=
  fun target propertyKey =>
    match getPropertySchema target propertyKey with
    | some _ =>
        .error (.ConstraintDefinitionError
          ("A validation schema already exists for property: " ++ propertyKey))
    | none => .ok (updateSchema target propertyKey Joi.any)

/-- Decorator from src/constraints/any.ts: `Concat(schema)`.  The inner
callback parameter is also named `schema` and shadows the decorator
argument, exactly as in the source, so the update applied is
`schema.concat(schema)` on the accumulated node. -/
def Concat (schema : Schema) : PropertyDecorator :=
  fun target propertyKey =>
    getAndUpdateSchema target propertyKey (fun (schema : Schema) => schema.concat schema)

/-- Modelled from the spec: the behaviour the source documents for `Concat`
(add the rules of the supplied schema to the accumulated node), stated for
comparison with the `Concat` of src/constraints/any.ts. -/
def ConcatSpec (schema : Schema) : PropertyDecorator :=
  fun target propertyKey =>
    getAndUpdateSchema target propertyKey (fun schemaToUpdate => schemaToUpdate.concat schema)

/-- Decorator from src/constraints/any.ts: `Default(value, description)`
sets a default used when the original value is undefined. -/
def Default (value : Option Value) (description : Option String) : PropertyDecorator :=
  fun target propertyKey =>
    getAndUpdateSchema target propertyKey (fun schema => schema.default value description)

/-- Decorator from src/constraints/any.ts: `Invalid(...values)` excludes
values via `schema.invalid(values)`. -/
def Invalid (values : List Value) : PropertyDecorator :=
  fun target propertyKey =>
    getAndUpdateSchema target propertyKey (fun schema => schema.invalid values)

/-- Alias from src/constraints/any.ts: `export const Disallow = Invalid`. -/
def Disallow : List Value → PropertyDecorator := Invalid

/-- Alias from src/constraints/any.ts: `export const Not = Invalid`. -/
def Not : List Value → PropertyDecorator := Invalid

/-- Decorator from src/constraints/any.ts: `Optional()` marks the key
optional via `schema.optional()`. -/
def Optional : PropertyDecorator :=
  fun target propertyKey =>
    getAndUpdateSchema target propertyKey (fun schema => schema.optional)

/-- Decorator from src/constraints/any.ts: `Required()` marks the key
required via `schema.required()`. -/
def Required : PropertyDecorator :=
  fun target propertyKey =>
    getAndUpdateSchema target propertyKey (fun schema => schema.required)

/-- Decorator from src/constraints/any.ts: `Valid(...values)` restricts the
key to a value set via `schema.valid(values)`. -/
def Valid (values : List Value) : PropertyDecorator :=
  fun target propertyKey =>
    getAndUpdateSchema target propertyKey (fun schema => schema.valid values)

/-- Alias from src/constraints/any.ts: `export const Only = Valid`. -/
def Only : List Value → PropertyDecorator := Valid

/-- Alias from src/constraints/any.ts: `export const Equal = Valid`. -/
def Equal : List Value → PropertyDecorator := Valid

/-- Modelled from the spec: the number base-kind establisher
`NumberSchema()` from constraints/number.ts (missing from src/), following
the establishment contract of spec section 4.2 exactly as `AnySchema`
implements it in src/constraints/any.ts. -/
def NumberSchema : PropertyDecorator :=
  fun target propertyKey =>
    match getPropertySchema target propertyKey with
    | some _ =>
        .error (.ConstraintDefinitionError
          ("A validation schema already exists for property: " ++ propertyKey))
    | none => .ok (updateSchema target propertyKey Joi.number)

/-- Modelled from the spec: the boolean base-kind establisher
`BooleanSchema()` from constraints/boolean.ts (missing from src/), following
the establishment contract of spec section 4.2. -/
def BooleanSchema : PropertyDecorator :=
  fun target propertyKey =>
    match getPropertySchema target propertyKey with
    | some _ =>
        .error (.ConstraintDefinitionError
          ("A validation schema already exists for property: " ++ propertyKey))
    | none => .ok (updateSchema target propertyKey Joi.boolean)

/-- Modelled from the spec: the object base-kind establisher
`ObjectSchema()` from constraints/object.ts (missing from src/), following
the establishment contract of spec section 4.2. -/
def ObjectSchema : PropertyDecorator :=
  fun target propertyKey =>
    match getPropertySchema target propertyKey with
    | some _ =>
        .error (.ConstraintDefinitionError
          ("A validation schema already exists for property: " ++ propertyKey))
    | none => .ok (updateSchema target propertyKey Joi.object)

/-- Modelled from the spec: the numeric lower-bound refinement `Min(value)`
from constraints/number.ts (missing from src/), following the uniform
refinement contract of spec section 4.3 as every refinement in
src/constraints/any.ts implements it. -/
def Min (value : Int) : PropertyDecorator :=
  fun target propertyKey =>
    getAndUpdateSchema target propertyKey (fun schema => schema.min value)

/-- Modelled from the spec: the boolean refinement `Truthy(...values)` from
constraints/boolean.ts (missing from src/), adding extra accepted truthy
values per the uniform refinement contract of spec section 4.3. -/
def Truthy (values : List Value) : PropertyDecorator :=
  fun target propertyKey =>
    getAndUpdateSchema target propertyKey (fun schema => schema.truthy values)

/-- Modelled from the spec: the boolean refinement `Falsy(...values)` from
constraints/boolean.ts (missing from src/), adding extra accepted falsy
values per the uniform refinement contract of spec section 4.3. -/
def Falsy (values : List Value) : PropertyDecorator :=
  fun target propertyKey =>
    getAndUpdateSchema target propertyKey (fun schema => schema.falsy values)

/-- Modelled from the spec: the boolean refinement `Insensitive(enabled)`
from constraints/boolean.ts (missing from src/), setting case sensitivity
of truthy/falsy string matching per the uniform refinement contract of spec
section 4.3. -/
def Insensitive (enabled : Bool) : PropertyDecorator :=
  fun target propertyKey =>
    getAndUpdateSchema target propertyKey (fun schema => schema.insensitive enabled)

/-- Modelled from the spec: the nested-schema composer `Keys(keyMap)` from
constraints/object.ts (missing from src/).  Per spec section 4.4 the keys
refinement is itself a constraint decorator in the sense of section 4.3, so
it goes through the same fallible read-modify-write as every refinement in
src/constraints/any.ts; the Gotchas test expects exactly
`ValidationSchemaNotFound` with the outer property name when no schema was
established. -/
def Keys (keyMap : List (String × Schema)) : PropertyDecorator :=
  fun target propertyKey =>
    getAndUpdateSchema target propertyKey (fun schemaToUpdate => schemaToUpdate.keys keyMap)

/-- Uniform refinement decorator of spec section 4.3: every constraint
decorator of src/constraints/any.ts is this shape at some update
function. -/
def refineD (updateFunction : Schema → Schema) : PropertyDecorator :=
  fun target propertyKey => getAndUpdateSchema target propertyKey updateFunction

/-- Decorator evaluation for one property: the decorator declared nearest
the property runs first (language decorator semantics, spec section 2), so
the list is given in effective (bottom-to-top) application order and is
folded left to right, aborting class definition at the first error. -/
def applyDecorators (decorators : List PropertyDecorator) (target : Store)
    (propertyKey : String) : Except DecoratorError Store :=
  match decorators with
  | [] => .ok target
  | d :: rest =>
      match d target propertyKey with
      | .ok st => applyDecorators rest st propertyKey
      | .error e => .error e

/-- An instance of an annotated class: its own fields as property-name and
value pairs; a property absent from the list is undefined. -/
abbrev Instance := List (String × Value)

/-- One validation failure, qualified by the path to the offending property,
with a human-readable message and an error-kind tag (spec section 3). -/
structure PathedError where
  path : String
  message : String
  etype : String
  deriving DecidableEq, Repr

/-- Outcome of validating an instance: the (possibly defaulted) value, or
the ordered list of pathed errors (spec section 3). -/
inductive ValidationOutcome where
  | ok (value : Instance)
  | errors (details : List PathedError)
  deriving DecidableEq, Repr

/-- Whether an outcome is the success branch. -/
def ValidationOutcome.isSuccess : ValidationOutcome → Bool
  | .ok _ => true
  | .errors _ => false

/-- Field lookup on an instance. -/
def lookupInstance (inst : Instance) (propertyKey : String) : Option Value :=
  match inst with
  | [] => none
  | (k, v) :: rest =>
      if k = propertyKey then some v else lookupInstance rest propertyKey

/-- Lower-casing of a string, character by character. -/
def lowerString (s : String) : String :=
  String.mk (s.data.map Char.toLower)

/-- Modelled from the spec: value matching of the external Joi algebra —
configured string values match case-insensitively when insensitivity is in
force, all other values by equality. -/
def matchValue (insens : Bool) (configured : Value) (v : Value) : Bool :=
  match configured, v with
  | .vstr a, .vstr b =>
      if insens then lowerString a == lowerString b else a == b
  | a, b => a == b

/-- Modelled from the spec: the base-kind test of the external Joi validate
primitive.  A number schema accepts numeric values; a boolean schema accepts
boolean literals plus the configured truthy and falsy values, matched with
the node's case sensitivity; an any schema accepts everything. -/
def kindOk (schema : Schema) (v : Value) : Bool :=
  match schema.kind with
  | .any => true
  | .number =>
      match v with
      | .vnum _ => true
      | _ => false
  | .boolean =>
      (match v with
       | .vbool _ => true
       | _ => false)
      || (schema.truthys ++ schema.falsys).any (fun w => matchValue schema.insens w v)
  | .object => false

/-- Modelled from the spec: the per-value checks of the external Joi
validate primitive on the rules the repository composes — whitelisted
values pass outright; otherwise the base kind, every accumulated lower
bound, the valid set and the invalid set are checked, each failure
producing a message and an error-kind tag. -/
def checkValue (schema : Schema) (v : Value) : List (String × String) :=
  if (schema.allowQ).any (fun w => matchValue schema.insens w v) then []
  else
    (if kindOk schema v then []
     else [("value is not of the expected base kind", "base.kind")])
    ++ ((schema.mins).filterMap (fun n =>
          match v with
          | .vnum m =>
              if m < n then
                some ("must be larger than or equal to " ++ toString n, "number.min")
              else none
          | _ => none))
    ++ (if (schema.validQ).isEmpty then []
        else if (schema.validQ).any (fun w => matchValue schema.insens w v) then []
        else [("must be one of the valid values", "any.allowOnly")])
    ++ (if (schema.invalidQ).any (fun w => matchValue schema.insens w v) then
          [("contains an invalid value", "any.invalid")]
        else [])

/-- Modelled from the spec: validation of one property by the external Joi
validate primitive — an absent value fails exactly when the node's
effective presence is required, and a present value is run through the
accumulated checks, every failure path-qualified with the property name. -/
def validateProperty (propertyKey : String) (schema : Schema)
    (value : Option Value) : List PathedError :=
  match value with
  | none =>
      match schema.presence with
      | some .required => [⟨propertyKey, "is required", "any.required"⟩]
      | _ => []
  | some v =>
      (checkValue schema v).map (fun p => ⟨propertyKey, p.1, p.2⟩)

/-- Modelled from the spec: error collection of the Validator (spec section
4.5) — every annotated property is checked against the instance's field,
preserving store order. -/
def collectErrors (store : Store) (inst : Instance) : List PathedError :=
  match store with
  | [] => []
  | (k, sch) :: rest =>
      validateProperty k sch (lookupInstance inst k)
        ++ collectErrors rest inst

/-- Modelled from the spec: default filling of the external Joi validate
primitive — the returned value carries a configured default for every
annotated property the instance leaves undefined; the instance itself is
not written to. -/
def applyDefaults (store : Store) (inst : Instance) : Instance :=
  match store with
  | [] => inst
  | (k, sch) :: rest =>
      match lookupInstance inst k, sch.defaultQ with
      | none, some d => applyDefaults rest (inst ++ [(k, d)])
      | _, _ => applyDefaults rest inst

/-- Modelled from the spec: the Validator entry point `validate(instance)`
(spec section 4.5, missing from src/) — it reads the accumulated store,
invokes the external validation primitive, and returns either the possibly
defaulted value or the ordered pathed errors. -/
def validate (store : Store) (inst : Instance) : ValidationOutcome :=
  let errs := collectErrors store inst
  if errs = [] then .ok (applyDefaults store inst) else .errors errs

/-- Modelled from the spec: one `validate` call observed together with the
state of the instance after the call (spec section 4.5 step 4: the
Validator only returns an outcome; the instance is left as the call found
it). -/
def validateCall (store : Store) (inst : Instance) :
    ValidationOutcome × Instance :=
  (validate store inst, inst)

/-- Whether a decorator outcome is a `ConstraintDefinitionError`. -/
def isConstraintDefinitionError : Except DecoratorError Store → Bool
  | .error (.ConstraintDefinitionError _) => true
  | _ => false

/-- Reading a property back right after an overwrite yields the written
node. -/
theorem getPropertySchema_updateSchema_self (target : Store) (propertyKey : String)
    (schema : Schema) :
    getPropertySchema (updateSchema target propertyKey schema) propertyKey = some schema := by
  induction target with
  | nil => simp [updateSchema, getPropertySchema]
  | cons hd tl ih =>
      obtain ⟨k, s⟩ := hd
      by_cases h : k = propertyKey
      · simp [updateSchema, getPropertySchema, h]
      · simp [updateSchema, getPropertySchema, h, ih]

/-- Overwriting a property with the node it already holds leaves the store
unchanged. -/
theorem updateSchema_self (target : Store) (propertyKey : String) (schema : Schema)
    (h : getPropertySchema target propertyKey = some schema) :
    updateSchema target propertyKey schema = target := by
  induction target with
  | nil => simp [getPropertySchema] at h
  | cons hd tl ih =>
      obtain ⟨k, s⟩ := hd
      by_cases hk : k = propertyKey
      · simp [getPropertySchema, hk] at h
        simp [updateSchema, hk, h]
      · simp [getPropertySchema, hk] at h
        simp [updateSchema, hk, ih h]

/-- Two overwrites of the same property collapse to the second one. -/
theorem updateSchema_updateSchema (target : Store) (propertyKey : String)
    (a b : Schema) :
    updateSchema (updateSchema target propertyKey a) propertyKey b
      = updateSchema target propertyKey b := by
  induction target with
  | nil => simp [updateSchema]
  | cons hd tl ih =>
      obtain ⟨k, s⟩ := hd
      by_cases h : k = propertyKey
      · simp [updateSchema, h]
      · simp [updateSchema, h, ih]

/-- A sequence of uniform refinement decorators on an established property
rewrites the store at that property to the left fold of the update
functions over the established node. -/
theorem applyDecorators_map_refineD (fs : List (Schema → Schema)) (target : Store)
    (propertyKey : String) (n : Schema)
    (h : getPropertySchema target propertyKey = some n) :
    applyDecorators (fs.map refineD) target propertyKey
      = .ok (updateSchema target propertyKey (fs.foldl (fun s f => f s) n)) := by
  induction fs generalizing target n with
  | nil =>
      simp [applyDecorators, updateSchema_self target propertyKey n h]
  | cons f fs ih =>
      have step : refineD f target propertyKey
          = .ok (updateSchema target propertyKey (f n)) := by
        simp [refineD, getAndUpdateSchema, h]
      have h2 : getPropertySchema (updateSchema target propertyKey (f n)) propertyKey
          = some (f n) :=
        getPropertySchema_updateSchema_self target propertyKey (f n)
      have tail := ih (updateSchema target propertyKey (f n)) (f n) h2
      simp [applyDecorators, step, tail, updateSchema_updateSchema]

/-- Claim C1: a property carrying the keys nested-schema composer but no
object-establishing decorator makes class definition fail with
`ValidationSchemaNotFound` naming that outer property, for every keys map
(in particular when every nested entry is itself a well-formed schema); the
store model carries no declared static type, so no base kind can be
inferred from one. -/
theorem keys_without_object_establishment (keyMap : List (String × Schema))
    (target : Store) (propertyKey : String)
    (h : getPropertySchema target propertyKey = none) :
    Keys keyMap target propertyKey = .error (.ValidationSchemaNotFound propertyKey)
    ∧ applyDecorators [Keys keyMap] target propertyKey
        = .error (.ValidationSchemaNotFound propertyKey) := by
  constructor
  · simp [Keys, getAndUpdateSchema, h]
  · simp [applyDecorators, Keys, getAndUpdateSchema, h]

/-- Witness for C1, mirroring the Gotchas test: a keys map whose single
nested property is a well-formed number schema, on a property with no
established node. -/
theorem keys_without_object_establishment_witness :
    Keys [("nestedProperty", Joi.number)] [] ("myProperty")
        = .error (.ValidationSchemaNotFound ("myProperty"))
    ∧ applyDecorators [Keys [("nestedProperty", Joi.number)]] [] ("myProperty")
        = .error (.ValidationSchemaNotFound ("myProperty")) :=
  keys_without_object_establishment [("nestedProperty", Joi.number)] [] ("myProperty") rfl

/-- Claim C2: applying any refinement decorator before a type-establishing
decorator (in effective bottom-to-top order) makes class definition fail
with `ValidationSchemaNotFound` naming the property: the generic uniform
refinement, the refinement-led decorator sequence, and the concrete
`Optional` and `Min(10)` decorators of the union-types test all fail this
way on an unestablished property. -/
theorem refinement_before_establishment (f : Schema → Schema)
    (ds : List PropertyDecorator) (target : Store) (propertyKey : String)
    (h : getPropertySchema target propertyKey = none) :
    getAndUpdateSchema target propertyKey f = .error (.ValidationSchemaNotFound propertyKey)
    ∧ refineD f target propertyKey = .error (.ValidationSchemaNotFound propertyKey)
    ∧ applyDecorators (refineD f :: ds) target propertyKey
        = .error (.ValidationSchemaNotFound propertyKey)
    ∧ Optional target propertyKey = .error (.ValidationSchemaNotFound propertyKey)
    ∧ Min 10 target propertyKey = .error (.ValidationSchemaNotFound propertyKey) := by
  refine ⟨?_, ?_, ?_, ?_, ?_⟩ <;>
    simp [getAndUpdateSchema, refineD, applyDecorators, Optional, Min, h]

/-- Witness for C2: the union-types test property, decorated `Min(10)` then
`Optional()` with no establishing decorator below them. -/
theorem refinement_before_establishment_witness :
    getAndUpdateSchema [] ("myProperty") (fun schema => schema.optional)
        = .error (.ValidationSchemaNotFound ("myProperty"))
    ∧ refineD (fun schema => schema.optional) [] ("myProperty")
        = .error (.ValidationSchemaNotFound ("myProperty"))
    ∧ applyDecorators (refineD (fun schema => schema.optional) :: [Min 10]) [] ("myProperty")
        = .error (.ValidationSchemaNotFound ("myProperty"))
    ∧ Optional [] ("myProperty") = .error (.ValidationSchemaNotFound ("myProperty"))
    ∧ Min 10 [] ("myProperty") = .error (.ValidationSchemaNotFound ("myProperty")) :=
  refinement_before_establishment (fun schema => schema.optional) [Min 10] [] ("myProperty") rfl

/-- Claim C3: every type-establishing decorator fails with
`ConstraintDefinitionError` naming the property when a schema already
exists for it, and on success stores a freshly constructed base-kind node
for its kind. -/
theorem establish_conflict_or_fresh_node (target : Store) (propertyKey : String) :
    (∀ s, getPropertySchema target propertyKey = some s →
        AnySchema target propertyKey
            = .error (.ConstraintDefinitionError
                ("A validation schema already exists for property: " ++ propertyKey))
        ∧ NumberSchema target propertyKey
            = .error (.ConstraintDefinitionError
                ("A validation schema already exists for property: " ++ propertyKey))
        ∧ BooleanSchema target propertyKey
            = .error (.ConstraintDefinitionError
                ("A validation schema already exists for property: " ++ propertyKey))
        ∧ ObjectSchema target propertyKey
            = .error (.ConstraintDefinitionError
                ("A validation schema already exists for property: " ++ propertyKey)))
    ∧ (getPropertySchema target propertyKey = none →
        AnySchema target propertyKey = .ok (updateSchema target propertyKey Joi.any)
        ∧ NumberSchema target propertyKey = .ok (updateSchema target propertyKey Joi.number)
        ∧ BooleanSchema target propertyKey = .ok (updateSchema target propertyKey Joi.boolean)
        ∧ ObjectSchema target propertyKey = .ok (updateSchema target propertyKey Joi.object)) := by
  constructor
  · intro s h
    refine ⟨?_, ?_, ?_, ?_⟩ <;>
      simp [AnySchema, NumberSchema, BooleanSchema, ObjectSchema, h]
  · intro h
    refine ⟨?_, ?_, ?_, ?_⟩ <;>
      simp [AnySchema, NumberSchema, BooleanSchema, ObjectSchema, h]

/-- Witness for C3: a second establishing decorator on an already
established property aborts with the conflict error, and establishment on a
fresh property stores the fresh `any` node. -/
theorem establish_conflict_or_fresh_node_witness :
    AnySchema [("p", Schema.number)] ("p")
        = .error (.ConstraintDefinitionError
            ("A validation schema already exists for property: " ++ "p"))
    ∧ AnySchema [] ("p") = .ok (updateSchema [] ("p") Joi.any) :=
  ⟨((establish_conflict_or_fresh_node [("p", Schema.number)] ("p")).1 Schema.number rfl).1,
   ((establish_conflict_or_fresh_node [] ("p")).2 rfl).1⟩

/-- Claim C4 (code evaluated at the failing input): the `Concat` decorator
of src/constraints/any.ts concatenates the accumulated node with itself —
its inner callback parameter shadows the decorator's `schema` argument — so
the supplied schema's rules are never added: on a property established as a
number schema, `Concat` of a required number schema leaves a node that
still accepts an absent value, while the documented behaviour (`ConcatSpec`)
adds the requiredness and rejects it. -/
theorem concat_ignores_supplied_schema :
    Concat (Schema.required Schema.number) [("myProperty", Joi.number)] ("myProperty")
        = .ok [("myProperty", Schema.concat Schema.number Schema.number)]
    ∧ ConcatSpec (Schema.required Schema.number) [("myProperty", Joi.number)] ("myProperty")
        = .ok [("myProperty", Schema.concat Schema.number (Schema.required Schema.number))]
    ∧ (validate [("myProperty", Schema.concat Schema.number Schema.number)] []).isSuccess
        = true
    ∧ (validate [("myProperty", Schema.concat Schema.number (Schema.required Schema.number))]
        []).isSuccess = false :=
  ⟨rfl, rfl, rfl, rfl⟩

/-- Claim C5 (counterexample): applying the keys composer to a property for
which no schema at all has been established raises
`ValidationSchemaNotFound`, not `ConstraintDefinitionError`, contrary to
the claim's stated error kind. -/
theorem keys_unestablished_error_kind_counterexample :
    isConstraintDefinitionError (Keys [("nestedProperty", Joi.number)] [] ("otherProperty"))
        = false
    ∧ Keys [("nestedProperty", Joi.number)] [] ("otherProperty")
        = .error (.ValidationSchemaNotFound ("otherProperty")) :=
  ⟨rfl, rfl⟩

/-- Claim C5 (amended): applying the keys composer when no schema has been
established for the property fails with `ValidationSchemaNotFound` naming
the property, the keys refinement going through the same fallible
read-modify-write as every constraint decorator. -/
theorem keys_unestablished_raises_not_found (keyMap : List (String × Schema))
    (target : Store) (propertyKey : String)
    (h : getPropertySchema target propertyKey = none) :
    Keys keyMap target propertyKey = .error (.ValidationSchemaNotFound propertyKey) := by
  simp [Keys, getAndUpdateSchema, h]

/-- Witness for the amended C5. -/
theorem keys_unestablished_raises_not_found_witness :
    Keys [("nestedProperty", Joi.number)] [] ("otherProperty")
        = .error (.ValidationSchemaNotFound ("otherProperty")) :=
  keys_unestablished_raises_not_found [("nestedProperty", Joi.number)] [] ("otherProperty") rfl

/-- Claim C6: for the property decorated `Min(10)`, `Optional()`,
`NumberSchema()` (effective order: establishment, then optional, then the
lower bound), an instance leaving the property undefined validates
successfully, an instance with value 5 fails with exactly one pathed error
at path `myProperty`, and an instance with value 20 validates
successfully. -/
theorem min_optional_number_end_to_end :
    applyDecorators [NumberSchema, Optional, Min 10] [] ("myProperty")
        = .ok [("myProperty", Schema.min (Schema.optional Schema.number) 10)]
    ∧ validate [("myProperty", Schema.min (Schema.optional Schema.number) 10)] []
        = .ok []
    ∧ validate [("myProperty", Schema.min (Schema.optional Schema.number) 10)]
        [("myProperty", Value.vnum 5)]
        = .errors [⟨"myProperty", "must be larger than or equal to 10", "number.min"⟩]
    ∧ validate [("myProperty", Schema.min (Schema.optional Schema.number) 10)]
        [("myProperty", Value.vnum 20)]
        = .ok [("myProperty", Value.vnum 20)] :=
  ⟨rfl, rfl, rfl, rfl⟩

/-- Claim C7: refinements on one property accumulate as the sequential left
fold of their update functions over the established node, in effective
bottom-to-top application order; concretely, optional-then-required ends
required and an absent property fails validation, while
required-then-optional ends optional and an absent property passes. -/
theorem refinements_fold_and_presence_order :
    (∀ (fs : List (Schema → Schema)) (target : Store) (propertyKey : String) (n : Schema),
        getPropertySchema target propertyKey = some n →
        applyDecorators (fs.map refineD) target propertyKey
          = .ok (updateSchema target propertyKey (fs.foldl (fun s f => f s) n)))
    ∧ applyDecorators [AnySchema, Optional, Required] [] ("p")
        = .ok [("p", Schema.required (Schema.optional Schema.any))]
    ∧ (validate [("p", Schema.required (Schema.optional Schema.any))] []).isSuccess = false
    ∧ applyDecorators [AnySchema, Required, Optional] [] ("p")
        = .ok [("p", Schema.optional (Schema.required Schema.any))]
    ∧ (validate [("p", Schema.optional (Schema.required Schema.any))] []).isSuccess = true :=
  ⟨fun fs target propertyKey n h => applyDecorators_map_refineD fs target propertyKey n h,
   rfl, rfl, rfl, rfl⟩

/-- Witness for C7: folding a single optional refinement over an
established `any` node. -/
theorem refinements_fold_and_presence_order_witness :
    applyDecorators ([fun schema => Schema.optional schema].map refineD)
        [("p", Schema.any)] ("p")
      = .ok (updateSchema [("p", Schema.any)] ("p")
          ([fun schema => Schema.optional schema].foldl (fun s f => f s) Schema.any)) :=
  (refinements_fold_and_presence_order).1
    [fun schema => Schema.optional schema] [("p", Schema.any)] ("p") Schema.any rfl

/-- Claim C8: the alias decorators denote exactly the operation of their
principal name — `Only` and `Equal` behave as `Valid`, `Disallow` and `Not`
behave as `Invalid`, for every argument list, store and property key. -/
theorem alias_decorators_agree (values : List Value) (target : Store)
    (propertyKey : String) :
    Only values target propertyKey = Valid values target propertyKey
    ∧ Equal values target propertyKey = Valid values target propertyKey
    ∧ Disallow values target propertyKey = Invalid values target propertyKey
    ∧ Not values target propertyKey = Invalid values target propertyKey :=
  ⟨rfl, rfl, rfl, rfl⟩

/-- Claim C9: a `validate` call only returns an outcome and leaves the
instance exactly as it found it, for every store and instance; a defaulted
value shows up only in the returned outcome while the instance still lacks
the property. -/
theorem validate_does_not_mutate_instance :
    (∀ (store : Store) (inst : Instance), (validateCall store inst).2 = inst)
    ∧ validateCall [("myProperty", Schema.default Schema.any (some (Value.vstr "d")) none)] []
        = (.ok [("myProperty", Value.vstr "d")], []) :=
  ⟨fun _ _ => rfl, rfl⟩

/-- Claim C10: a boolean-schema property with string truthy and falsy
values matches them case-insensitively by default — `Truthy("y")` also
accepts `"Y"` — and applying `Insensitive(false)` makes matching
case-sensitive, so the differently-cased variants `"Y"` and `"N"` are
rejected while `"y"` and `"n"` stay accepted. -/
theorem truthy_falsy_insensitivity :
    applyDecorators [BooleanSchema, Truthy [Value.vstr "y"], Falsy [Value.vstr "n"]]
        [] ("myProperty")
      = .ok [("myProperty",
          Schema.falsy (Schema.truthy Schema.boolean [Value.vstr "y"]) [Value.vstr "n"])]
    ∧ validate [("myProperty",
          Schema.falsy (Schema.truthy Schema.boolean [Value.vstr "y"]) [Value.vstr "n"])]
        [("myProperty", Value.vstr "Y")]
      = .ok [("myProperty", Value.vstr "Y")]
    ∧ applyDecorators
        [BooleanSchema, Truthy [Value.vstr "y"], Falsy [Value.vstr "n"], Insensitive false]
        [] ("myProperty")
      = .ok [("myProperty",
          Schema.insensitive
            (Schema.falsy (Schema.truthy Schema.boolean [Value.vstr "y"]) [Value.vstr "n"])
            false)]
    ∧ (validate [("myProperty",
          Schema.insensitive
            (Schema.falsy (Schema.truthy Schema.boolean [Value.vstr "y"]) [Value.vstr "n"])
            false)]
        [("myProperty", Value.vstr "Y")]).isSuccess = false
    ∧ (validate [("myProperty",
          Schema.insensitive
            (Schema.falsy (Schema.truthy Schema.boolean [Value.vstr "y"]) [Value.vstr "n"])
            false)]
        [("myProperty", Value.vstr "N")]).isSuccess = false
    ∧ validate [("myProperty",
          Schema.insensitive
            (Schema.falsy (Schema.truthy Schema.boolean [Value.vstr "y"]) [Value.vstr "n"])
            false)]
        [("myProperty", Value.vstr "y")]
      = .ok [("myProperty", Value.vstr "y")]
    ∧ validate [("myProperty",
          Schema.insensitive
            (Schema.falsy (Schema.truthy Schema.boolean [Value.vstr "y"]) [Value.vstr "n"])
            false)]
        [("myProperty", Value.vstr "n")]
      = .ok [("myProperty", Value.vstr "n")] :=
  ⟨rfl, by decide, rfl, by decide, by decide, by decide, by decide⟩

end TsdvJoi
